import Mathlib

/-!
Verification of the PLUMESCAPE trade-study core (`src/LCA.py`).

The Pad Model (`LandingPad`) and the Sweep Engine (`TradeStudy.run_full_study`)
are embedded shallowly over `ℚ`.  Python's raising division is modelled by an
`Except String` variant of the sweep (`TradeStudy.run_full_studyE`), which
returns `Except.error` exactly where the Python code would raise
`ZeroDivisionError` (division by `distance**2 == 0`), and otherwise returns
the complete table produced by the pure sweep.
-/

/-- Embedding of the `LandingPad` class of `src/LCA.py`: one design's name and
physical coefficients, as set in `LandingPad.__init__`. -/
structure LandingPad where
  name : String
  dust_coeff : ℚ
  erosion_coeff : ℚ
  construction_cost : ℚ
  maintenance_interval : ℚ
  deriving DecidableEq

/-- Embedding of `LandingPad.calculate_dust_deposition`:
`dust_coeff * thrust / distance**2`. -/
def LandingPad.calculate_dust_deposition (pad : LandingPad) (thrust distance : ℚ) : ℚ :=
  pad.dust_coeff * thrust / distance ^ 2

/-- Embedding of `LandingPad.calculate_erosion`: `erosion_coeff * thrust`. -/
def LandingPad.calculate_erosion (pad : LandingPad) (thrust : ℚ) : ℚ :=
  pad.erosion_coeff * thrust

/-- Embedding of `LandingPad.calculate_maintenance_cost`:
`construction_cost * (lifetime_months / maintenance_interval)`. -/
def LandingPad.calculate_maintenance_cost (pad : LandingPad) (lifetime_months : ℚ) : ℚ :=
  pad.construction_cost * (lifetime_months / pad.maintenance_interval)

/-- One row of the result table of `TradeStudy.run_full_study`: the dict
appended to `results` in the innermost loop body. -/
structure ResultRecord where
  pad : String
  solar_distance : ℚ
  frequency : ℚ
  dust_solar : ℚ
  erosion : ℚ
  deriving DecidableEq

/-- Embedding of `TradeStudy.__init__`: the pads under study plus the shared
vehicle-thrust and lifetime parameters. -/
structure TradeStudy where
  pads : List LandingPad
  vehicle_thrust : ℚ
  lifetime_months : ℚ

/-- The record built by the innermost loop body of `run_full_study` for one
`(pad, solar_distance, freq)` point: `dust_solar` is the pad's dust deposition
times the frequency, `erosion` is the pad's erosion per landing times the
frequency. -/
def sweepPoint (pad : LandingPad) (thrust solar_distance freq : ℚ) : ResultRecord :=
  { pad := pad.name
    solar_distance := solar_distance
    frequency := freq
    dust_solar := pad.calculate_dust_deposition thrust solar_distance * freq
    erosion := pad.calculate_erosion thrust * freq }

/-- Embedding of `TradeStudy.run_full_study`: the triple-nested loop over pads,
distances and frequencies, appending one record per point, in loop order. -/
def TradeStudy.run_full_study (ts : TradeStudy) (distances frequencies : List ℚ) :
    List ResultRecord :=
  ts.pads.flatMap fun pad =>
    distances.flatMap fun solar_distance =>
      frequencies.map fun freq =>
        sweepPoint pad ts.vehicle_thrust solar_distance freq

/-- The message of the `ZeroDivisionError` Python raises on division by zero. -/
def divisionErrorMsg : String := "ZeroDivisionError: division by zero"

/-- Embedding of `calculate_dust_deposition` with Python's raising division
made explicit: an error exactly when the divisor `distance**2` is zero. -/
def LandingPad.calculate_dust_depositionE (pad : LandingPad) (thrust distance : ℚ) :
    Except String ℚ :=
  if distance ^ 2 = 0 then Except.error divisionErrorMsg
  else Except.ok (pad.dust_coeff * thrust / distance ^ 2)

/-- Innermost loop body of `run_full_study` with raising division. -/
def sweepPointE (pad : LandingPad) (thrust solar_distance freq : ℚ) :
    Except String ResultRecord :=
  (pad.calculate_dust_depositionE thrust solar_distance).map fun dust =>
    { pad := pad.name
      solar_distance := solar_distance
      frequency := freq
      dust_solar := dust * freq
      erosion := pad.calculate_erosion thrust * freq }

/-- Inner `for freq in frequencies` loop of `run_full_study`, with raising
division: stops at the first error, in loop order. -/
def sweepFreqsE (pad : LandingPad) (thrust solar_distance : ℚ) :
    List ℚ → Except String (List ResultRecord)
  | [] => Except.ok []
  | freq :: rest =>
    (sweepPointE pad thrust solar_distance freq).bind fun r =>
      (sweepFreqsE pad thrust solar_distance rest).map fun rs => r :: rs

/-- Middle `for solar_distance in distances` loop of `run_full_study`, with
raising division. -/
def sweepDistsE (pad : LandingPad) (thrust : ℚ) (frequencies : List ℚ) :
    List ℚ → Except String (List ResultRecord)
  | [] => Except.ok []
  | d :: rest =>
    (sweepFreqsE pad thrust d frequencies).bind fun rs =>
      (sweepDistsE pad thrust frequencies rest).map fun tail => rs ++ tail

/-- Outer `for pad in self.pads` loop of `run_full_study`, with raising
division. -/
def sweepPadsE (thrust : ℚ) (distances frequencies : List ℚ) :
    List LandingPad → Except String (List ResultRecord)
  | [] => Except.ok []
  | pad :: rest =>
    (sweepDistsE pad thrust frequencies distances).bind fun rs =>
      (sweepPadsE thrust distances frequencies rest).map fun tail => rs ++ tail

/-- Embedding of `run_full_study` with Python's raising division modelled: the
sweep either returns the complete table or the first `ZeroDivisionError` in
iteration order, and an error result delivers no records at all. -/
def TradeStudy.run_full_studyE (ts : TradeStudy) (distances frequencies : List ℚ) :
    Except String (List ResultRecord) :=
  sweepPadsE ts.vehicle_thrust distances frequencies ts.pads

/-- The first pad of the entry-point configuration of `src/LCA.py`
(`dust_coeff` 0.02 = 1/50, `erosion_coeff` 0.1 = 1/10). -/
def padBRP : LandingPad :=
  { name := "Bare Regolith Pad (BRP)"
    dust_coeff := 1/50
    erosion_coeff := 1/10
    construction_cost := 500000
    maintenance_interval := 1 }

/-- The second pad of the entry-point configuration of `src/LCA.py`
(`dust_coeff` 0.01 = 1/100, `erosion_coeff` 0.05 = 1/20). -/
def padHSP : LandingPad :=
  { name := "Hardened Surface Pad (HSP)"
    dust_coeff := 1/100
    erosion_coeff := 1/20
    construction_cost := 2000000
    maintenance_interval := 6 }

/-- Length of a `flatMap` whose blocks all have the same length `m`. -/
theorem length_flatMap_const {α β : Type _} (l : List α) (f : α → List β) (m : ℕ)
    (h : ∀ a ∈ l, (f a).length = m) : (l.flatMap f).length = l.length * m := by
  induction l with
  | nil => simp
  | cons a t ih =>
    rw [List.flatMap_cons, List.length_append, h a (List.mem_cons_self a t),
      ih fun b hb => h b (List.mem_cons_of_mem a hb), List.length_cons]
    ring

/-- Indexing into a `flatMap` whose blocks all have the same length `m`:
position `i * m + k` lands in block `i` at offset `k`. -/
theorem getElem?_flatMap_const {α β : Type _} (l : List α) (f : α → List β) (m : ℕ)
    (h : ∀ a ∈ l, (f a).length = m) :
    ∀ (i k : ℕ) (hi : i < l.length), k < m →
      (l.flatMap f)[i * m + k]? = (f (l.get ⟨i, hi⟩))[k]? := by
  induction l with
  | nil => intro i k hi _; exact absurd hi (by simp)
  | cons a t ih =>
    intro i k hi hk
    match i with
    | 0 =>
      simp only [Nat.zero_mul, Nat.zero_add, List.flatMap_cons]
      rw [List.getElem?_append_left (by rw [h a (List.mem_cons_self a t)]; exact hk)]
      rfl
    | i' + 1 =>
      have hm : (f a).length = m := h a (List.mem_cons_self a t)
      have hidx : (i' + 1) * m + k = (f a).length + (i' * m + k) := by rw [hm]; ring
      rw [List.flatMap_cons, hidx, List.getElem?_append_right (Nat.le_add_right _ _),
        Nat.add_sub_cancel_left]
      exact ih (fun b hb => h b (List.mem_cons_of_mem a hb)) i' k
        (Nat.lt_of_succ_lt_succ hi) hk

/-- A nested grid offset `j * m + k` stays inside a block of `n * m` entries. -/
theorem grid_index_lt {j k m n : ℕ} (hj : j < n) (hk : k < m) : j * m + k < n * m :=
  calc j * m + k < j * m + m := Nat.add_lt_add_left hk _
    _ = (j + 1) * m := (Nat.succ_mul j m).symm
    _ ≤ n * m := Nat.mul_le_mul_right m hj

/-- Structure of the sweep output: the record at flat index
`i * (|X| * |F|) + j * |F| + k` is exactly the point record for the `i`-th pad,
`j`-th distance and `k`-th frequency. -/
theorem run_full_study_getElem? (ts : TradeStudy) (X F : List ℚ) (i j k : ℕ)
    (hi : i < ts.pads.length) (hj : j < X.length) (hk : k < F.length) :
    (ts.run_full_study X F)[i * (X.length * F.length) + j * F.length + k]? =
      some (sweepPoint (ts.pads.get ⟨i, hi⟩) ts.vehicle_thrust (X.get ⟨j, hj⟩)
        (F.get ⟨k, hk⟩)) := by
  have hblock : ∀ pad ∈ ts.pads,
      (X.flatMap fun d => F.map fun f => sweepPoint pad ts.vehicle_thrust d f).length
        = X.length * F.length := fun pad _ =>
    length_flatMap_const X _ F.length fun d _ => List.length_map F _
  have hjk : j * F.length + k < X.length * F.length := grid_index_lt hj hk
  have hidx : i * (X.length * F.length) + j * F.length + k
      = i * (X.length * F.length) + (j * F.length + k) := by ring
  unfold TradeStudy.run_full_study
  rw [hidx, getElem?_flatMap_const ts.pads _ (X.length * F.length) hblock i _ hi hjk,
    getElem?_flatMap_const X _ F.length (fun d _ => List.length_map F _) j k hj hk,
    List.getElem?_map, List.getElem?_eq_getElem hk]
  rfl

/-- At a nonzero distance the raising point evaluation succeeds and produces
exactly the pure point record. -/
theorem sweepPointE_ok (pad : LandingPad) (thrust d f : ℚ) (hd : d ≠ 0) :
    sweepPointE pad thrust d f = Except.ok (sweepPoint pad thrust d f) := by
  have h2 : d ^ 2 ≠ 0 := pow_ne_zero 2 hd
  simp [sweepPointE, LandingPad.calculate_dust_depositionE, h2, Except.map, sweepPoint,
    LandingPad.calculate_dust_deposition]

/-- At distance zero the raising point evaluation is the division error. -/
theorem sweepPointE_zero (pad : LandingPad) (thrust f : ℚ) :
    sweepPointE pad thrust 0 f = Except.error divisionErrorMsg := by
  simp [sweepPointE, LandingPad.calculate_dust_depositionE, Except.map]

/-- At a nonzero distance the raising frequency loop succeeds and produces the
pure records for every frequency, in order. -/
theorem sweepFreqsE_ok (pad : LandingPad) (thrust d : ℚ) (hd : d ≠ 0) :
    ∀ F : List ℚ, sweepFreqsE pad thrust d F
      = Except.ok (F.map fun f => sweepPoint pad thrust d f) := by
  intro F
  induction F with
  | nil => rfl
  | cons f fs ih =>
    rw [sweepFreqsE, sweepPointE_ok pad thrust d f hd, ih]
    rfl

/-- Either the raising frequency loop hits the division error, or it returns
the full block of pure records. -/
theorem sweepFreqsE_cases (pad : LandingPad) (thrust d : ℚ) (F : List ℚ) :
    sweepFreqsE pad thrust d F = Except.error divisionErrorMsg ∨
      sweepFreqsE pad thrust d F
        = Except.ok (F.map fun f => sweepPoint pad thrust d f) := by
  by_cases hd : d = 0
  · subst hd
    cases F with
    | nil => exact Or.inr rfl
    | cons f fs =>
      left
      rw [sweepFreqsE, sweepPointE_zero]
      rfl
  · exact Or.inr (sweepFreqsE_ok pad thrust d hd F)

/-- Either the raising distance loop hits the division error, or it returns
the full pure table for that pad. -/
theorem sweepDistsE_cases (pad : LandingPad) (thrust : ℚ) (F X : List ℚ) :
    sweepDistsE pad thrust F X = Except.error divisionErrorMsg ∨
      sweepDistsE pad thrust F X
        = Except.ok (X.flatMap fun d => F.map fun f => sweepPoint pad thrust d f) := by
  induction X with
  | nil => exact Or.inr rfl
  | cons d ds ih =>
    rcases sweepFreqsE_cases pad thrust d F with herr | hok
    · left
      rw [sweepDistsE, herr]
      rfl
    · rcases ih with herr' | hok'
      · left
        rw [sweepDistsE, hok, herr']
        rfl
      · right
        rw [sweepDistsE, hok, hok', List.flatMap_cons]
        rfl

/-- Either the raising pad loop hits the division error, or it returns the
full pure table. -/
theorem sweepPadsE_cases (thrust : ℚ) (X F : List ℚ) (pads : List LandingPad) :
    sweepPadsE thrust X F pads = Except.error divisionErrorMsg ∨
      sweepPadsE thrust X F pads
        = Except.ok (pads.flatMap fun pad =>
            X.flatMap fun d => F.map fun f => sweepPoint pad thrust d f) := by
  induction pads with
  | nil => exact Or.inr rfl
  | cons pad rest ih =>
    rcases sweepDistsE_cases pad thrust F X with herr | hok
    · left
      rw [sweepPadsE, herr]
      rfl
    · rcases ih with herr' | hok'
      · left
        rw [sweepPadsE, hok, herr']
        rfl
      · right
        rw [sweepPadsE, hok, hok', List.flatMap_cons]
        rfl

/-- The raising sweep never returns a proper subset of the grid: it is either
the division error or the complete pure result table. -/
theorem run_full_studyE_cases (ts : TradeStudy) (X F : List ℚ) :
    ts.run_full_studyE X F = Except.error divisionErrorMsg ∨
      ts.run_full_studyE X F = Except.ok (ts.run_full_study X F) :=
  sweepPadsE_cases ts.vehicle_thrust X F ts.pads

/-- With a zero distance and at least one frequency, the raising distance loop
reaches the division error. -/
theorem sweepDistsE_error (pad : LandingPad) (thrust : ℚ) (F X : List ℚ)
    (hX : (0 : ℚ) ∈ X) (hF : F ≠ []) :
    sweepDistsE pad thrust F X = Except.error divisionErrorMsg := by
  induction X with
  | nil => exact absurd hX (List.not_mem_nil 0)
  | cons d ds ih =>
    by_cases hd : d = 0
    · subst hd
      obtain ⟨f, fs, rfl⟩ : ∃ f fs, F = f :: fs := by
        cases F with
        | nil => exact absurd rfl hF
        | cons f fs => exact ⟨f, fs, rfl⟩
      rw [sweepDistsE, sweepFreqsE, sweepPointE_zero]
      rfl
    · have hmem : (0 : ℚ) ∈ ds := by
        rcases List.mem_cons.mp hX with h0 | h0
        · exact absurd h0.symm hd
        · exact h0
      rw [sweepDistsE, sweepFreqsE_ok pad thrust d hd F, ih hmem]
      rfl

/-- With no frequencies the raising distance loop builds nothing and cannot
fail: the innermost loop body is never reached. -/
theorem sweepDistsE_nil_freqs (pad : LandingPad) (thrust : ℚ) :
    ∀ X : List ℚ, sweepDistsE pad thrust [] X = Except.ok [] := by
  intro X
  induction X with
  | nil => rfl
  | cons d ds ih => simp [sweepDistsE, sweepFreqsE, Except.bind, Except.map, ih]

/-- With no distances the raising pad loop builds nothing and cannot fail. -/
theorem sweepPadsE_nil_dists (thrust : ℚ) (F : List ℚ) :
    ∀ pads : List LandingPad, sweepPadsE thrust [] F pads = Except.ok [] := by
  intro pads
  induction pads with
  | nil => rfl
  | cons pad rest ih => simp [sweepPadsE, sweepDistsE, Except.bind, Except.map, ih]

/-- With no frequencies the raising pad loop builds nothing and cannot fail. -/
theorem sweepPadsE_nil_freqs (thrust : ℚ) (X : List ℚ) :
    ∀ pads : List LandingPad, sweepPadsE thrust X [] pads = Except.ok [] := by
  intro pads
  induction pads with
  | nil => rfl
  | cons pad rest ih =>
    simp [sweepPadsE, sweepDistsE_nil_freqs, Except.bind, Except.map, ih]

/-- Claim C1: for every pad design, thrust, distance `d > 0` and frequency,
the `dust_solar` field of the record the sweep produces at the
`(design, distance, frequency)` grid point equals
`dust_coeff * thrust / d^2 * freq`, i.e. the Pad Model's dust deposition rate
multiplied by the frequency in the engine. -/
theorem dust_rate_field_eq (ts : TradeStudy) (X F : List ℚ) (i j k : ℕ)
    (hi : i < ts.pads.length) (hj : j < X.length) (hk : k < F.length)
    (hd : 0 < X.get ⟨j, hj⟩) :
    ((ts.run_full_study X F)[i * (X.length * F.length) + j * F.length + k]?).map
        (fun r => r.dust_solar)
      = some ((ts.pads.get ⟨i, hi⟩).dust_coeff * ts.vehicle_thrust
          / (X.get ⟨j, hj⟩) ^ 2 * F.get ⟨k, hk⟩) := by
  rw [run_full_study_getElem? ts X F i j k hi hj hk]
  rfl

/-- Witness for C1 at the entry-point-style input: one pad, distances
`[30, 50]`, frequencies `[5, 10]`, grid point `(0, 1, 0)`. -/
theorem dust_rate_field_eq_witness :
    (0 < ([padBRP] : List LandingPad).length) ∧ (1 < ([30, 50] : List ℚ).length)
      ∧ (0 < ([5, 10] : List ℚ).length) ∧ (0 < ([30, 50] : List ℚ).get ⟨1, by decide⟩)
      ∧ ((TradeStudy.run_full_study ⟨[padBRP], 40, 120⟩ [30, 50]
            [5, 10])[0 * (([30, 50] : List ℚ).length * ([5, 10] : List ℚ).length)
              + 1 * ([5, 10] : List ℚ).length + 0]?).map (fun r => r.dust_solar)
        = some ((([padBRP] : List LandingPad).get ⟨0, by decide⟩).dust_coeff * 40
            / (([30, 50] : List ℚ).get ⟨1, by decide⟩) ^ 2
            * ([5, 10] : List ℚ).get ⟨0, by decide⟩) :=
  ⟨by decide, by decide, by decide, by decide,
    dust_rate_field_eq ⟨[padBRP], 40, 120⟩ [30, 50] [5, 10] 0 1 0 (by decide) (by decide)
      (by decide) (by decide)⟩

/-- Claim C2: for every pad design, thrust and frequency, the `erosion` field
of the record the sweep produces at the `(design, distance, frequency)` grid
point equals `erosion_coeff * thrust * freq`, i.e. the Pad Model's erosion per
landing multiplied by the frequency in the engine. -/
theorem erosion_rate_field_eq (ts : TradeStudy) (X F : List ℚ) (i j k : ℕ)
    (hi : i < ts.pads.length) (hj : j < X.length) (hk : k < F.length) :
    ((ts.run_full_study X F)[i * (X.length * F.length) + j * F.length + k]?).map
        (fun r => r.erosion)
      = some ((ts.pads.get ⟨i, hi⟩).erosion_coeff * ts.vehicle_thrust
          * F.get ⟨k, hk⟩) := by
  rw [run_full_study_getElem? ts X F i j k hi hj hk]
  rfl

/-- Witness for C2 at one pad, distances `[30, 50]`, frequencies `[5, 10]`,
grid point `(0, 1, 1)`. -/
theorem erosion_rate_field_eq_witness :
    (0 < ([padBRP] : List LandingPad).length) ∧ (1 < ([30, 50] : List ℚ).length)
      ∧ (1 < ([5, 10] : List ℚ).length)
      ∧ ((TradeStudy.run_full_study ⟨[padBRP], 40, 120⟩ [30, 50]
            [5, 10])[0 * (([30, 50] : List ℚ).length * ([5, 10] : List ℚ).length)
              + 1 * ([5, 10] : List ℚ).length + 1]?).map (fun r => r.erosion)
        = some ((([padBRP] : List LandingPad).get ⟨0, by decide⟩).erosion_coeff * 40
            * ([5, 10] : List ℚ).get ⟨1, by decide⟩) :=
  ⟨by decide, by decide, by decide,
    erosion_rate_field_eq ⟨[padBRP], 40, 120⟩ [30, 50] [5, 10] 0 1 1 (by decide) (by decide)
      (by decide)⟩

/-- Claim C3: for non-empty designs, non-empty positive distances and
non-empty frequencies, the sweep returns exactly
`|designs| * |distances| * |frequencies|` records — the full Cartesian grid,
with no deduplication or filtering. -/
theorem run_full_study_length (ts : TradeStudy) (X F : List ℚ) (hD : ts.pads ≠ [])
    (hX : X ≠ []) (hF : F ≠ []) (hpos : ∀ d ∈ X, 0 < d) :
    (ts.run_full_study X F).length = ts.pads.length * X.length * F.length := by
  unfold TradeStudy.run_full_study
  rw [length_flatMap_const ts.pads _ (X.length * F.length)
      fun pad _ => length_flatMap_const X _ F.length fun d _ => List.length_map F _,
    mul_assoc]

/-- Witness for C3 at two pads, two distances and two frequencies: eight
records. -/
theorem run_full_study_length_witness :
    (([padBRP, padHSP] : List LandingPad) ≠ []) ∧ (([30, 50] : List ℚ) ≠ [])
      ∧ (([5, 10] : List ℚ) ≠ []) ∧ (∀ d ∈ ([30, 50] : List ℚ), 0 < d)
      ∧ (TradeStudy.run_full_study ⟨[padBRP, padHSP], 40, 120⟩ [30, 50] [5, 10]).length
        = ([padBRP, padHSP] : List LandingPad).length * ([30, 50] : List ℚ).length
          * ([5, 10] : List ℚ).length :=
  ⟨List.cons_ne_nil _ _, List.cons_ne_nil _ _, List.cons_ne_nil _ _, by decide,
    run_full_study_length ⟨[padBRP, padHSP], 40, 120⟩ [30, 50] [5, 10]
      (List.cons_ne_nil _ _) (List.cons_ne_nil _ _) (List.cons_ne_nil _ _) (by decide)⟩

/-- Claim C4: the sweep output is in deterministic nested order — grouped by
design in input order, then distance in input order, then frequency in input
order: the record at flat index `i * (|X| * |F|) + j * |F| + k` carries the
`i`-th pad's name, the `j`-th distance and the `k`-th frequency. -/
theorem run_full_study_nested_order (ts : TradeStudy) (X F : List ℚ) (i j k : ℕ)
    (hi : i < ts.pads.length) (hj : j < X.length) (hk : k < F.length) :
    ((ts.run_full_study X F)[i * (X.length * F.length) + j * F.length + k]?).map
        (fun r => (r.pad, r.solar_distance, r.frequency))
      = some ((ts.pads.get ⟨i, hi⟩).name, X.get ⟨j, hj⟩, F.get ⟨k, hk⟩) := by
  rw [run_full_study_getElem? ts X F i j k hi hj hk]
  rfl

/-- Witness for C4 at two pads, two distances and two frequencies, grid point
`(1, 0, 1)`: flat index `1 * (2 * 2) + 0 * 2 + 1 = 5`. -/
theorem run_full_study_nested_order_witness :
    (1 < ([padBRP, padHSP] : List LandingPad).length) ∧ (0 < ([30, 50] : List ℚ).length)
      ∧ (1 < ([5, 10] : List ℚ).length)
      ∧ ((TradeStudy.run_full_study ⟨[padBRP, padHSP], 40, 120⟩ [30, 50]
            [5, 10])[1 * (([30, 50] : List ℚ).length * ([5, 10] : List ℚ).length)
              + 0 * ([5, 10] : List ℚ).length + 1]?).map
          (fun r => (r.pad, r.solar_distance, r.frequency))
        = some ((([padBRP, padHSP] : List LandingPad).get ⟨1, by decide⟩).name,
            ([30, 50] : List ℚ).get ⟨0, by decide⟩, ([5, 10] : List ℚ).get ⟨1, by decide⟩) :=
  ⟨by decide, by decide, by decide,
    run_full_study_nested_order ⟨[padBRP, padHSP], 40, 120⟩ [30, 50] [5, 10] 1 0 1
      (by decide) (by decide) (by decide)⟩

/-- Claim C5: with a zero distance on the sweep axis and non-empty designs and
frequencies, the raising sweep surfaces the `ZeroDivisionError` to the caller:
the engine does not catch it, and the `Except.error` result delivers no
records at all (by `run_full_studyE_cases` the sweep is all-or-nothing). -/
theorem run_full_studyE_zero_distance (ts : TradeStudy) (X F : List ℚ)
    (hp : ts.pads ≠ []) (hX : (0 : ℚ) ∈ X) (hF : F ≠ []) :
    ts.run_full_studyE X F = Except.error divisionErrorMsg := by
  obtain ⟨pad, rest, hps⟩ : ∃ pad rest, ts.pads = pad :: rest := by
    cases hps : ts.pads with
    | nil => exact absurd hps hp
    | cons p r => exact ⟨p, r, rfl⟩
  unfold TradeStudy.run_full_studyE
  rw [hps, sweepPadsE, sweepDistsE_error pad ts.vehicle_thrust F X hX hF]
  rfl

/-- Witness for C5: one pad, the single distance `0`, one frequency. -/
theorem run_full_studyE_zero_distance_witness :
    (([padBRP] : List LandingPad) ≠ []) ∧ ((0 : ℚ) ∈ ([0] : List ℚ))
      ∧ (([5] : List ℚ) ≠ [])
      ∧ TradeStudy.run_full_studyE ⟨[padBRP], 40, 120⟩ [0] [5]
        = Except.error divisionErrorMsg :=
  ⟨List.cons_ne_nil _ _, by simp, List.cons_ne_nil _ _,
    run_full_studyE_zero_distance ⟨[padBRP], 40, 120⟩ [0] [5] (List.cons_ne_nil _ _)
      (by simp) (List.cons_ne_nil _ _)⟩

/-- Claim C6: for every pad with positive maintenance interval and every
lifetime, the maintenance-cost operation returns
`construction_cost * (lifetime_months / maintenance_interval)` (fractional
cycles allowed), and in particular it returns 60000000 for construction cost
500000, maintenance interval 1 and lifetime 120 months. -/
theorem maintenance_cost_eq (pad : LandingPad) (lifetime_months : ℚ)
    (h : 0 < pad.maintenance_interval) :
    pad.calculate_maintenance_cost lifetime_months
        = pad.construction_cost * (lifetime_months / pad.maintenance_interval)
      ∧ padBRP.calculate_maintenance_cost 120 = 60000000 :=
  ⟨rfl, by norm_num [LandingPad.calculate_maintenance_cost, padBRP]⟩

/-- Witness for C6 at the BRP pad (construction cost 500000, maintenance
interval 1) and lifetime 120 months. -/
theorem maintenance_cost_eq_witness :
    (0 < padBRP.maintenance_interval)
      ∧ (padBRP.calculate_maintenance_cost 120
            = padBRP.construction_cost * (120 / padBRP.maintenance_interval)
          ∧ padBRP.calculate_maintenance_cost 120 = 60000000) :=
  ⟨by decide, maintenance_cost_eq padBRP 120 (by decide)⟩

/-- Claim C7: for fixed design, thrust and frequency, the dust rate scales as
inverse-square in distance: at distance `2 * d` (with `d > 0`) it is the dust
rate at `d` divided by 4. -/
theorem dust_inverse_square_scaling (pad : LandingPad) (thrust freq d : ℚ)
    (hd : 0 < d) :
    pad.calculate_dust_deposition thrust (2 * d) * freq
      = pad.calculate_dust_deposition thrust d * freq / 4 := by
  have h0 : d ≠ 0 := ne_of_gt hd
  unfold LandingPad.calculate_dust_deposition
  rw [show (2 * d) ^ 2 = 4 * d ^ 2 by ring, div_mul_eq_mul_div, div_mul_eq_mul_div,
    div_div]
  congr 1
  ring

/-- Witness for C7 at the BRP pad, thrust 40, frequency 10, distance 1. -/
theorem dust_inverse_square_scaling_witness :
    ((0 : ℚ) < 1)
      ∧ padBRP.calculate_dust_deposition 40 (2 * 1) * 10
        = padBRP.calculate_dust_deposition 40 1 * 10 / 4 :=
  ⟨by decide, dust_inverse_square_scaling padBRP 40 10 1 (by decide)⟩

/-- Claim C8: erosion is linear in thrust and in frequency (doubling either
doubles it), and the `erosion` field of a sweep record does not depend on the
distance: two records at the same design and frequency but different distances
carry equal erosion rates. -/
theorem erosion_linear_and_distance_independent (ts : TradeStudy) (pad : LandingPad)
    (thrust freq : ℚ) (X F : List ℚ) (i j j' k : ℕ) (hi : i < ts.pads.length)
    (hj : j < X.length) (hj' : j' < X.length) (hk : k < F.length) :
    pad.calculate_erosion (2 * thrust) = 2 * pad.calculate_erosion thrust
      ∧ pad.calculate_erosion thrust * (2 * freq)
        = 2 * (pad.calculate_erosion thrust * freq)
      ∧ ((ts.run_full_study X F)[i * (X.length * F.length) + j * F.length + k]?).map
          (fun r => r.erosion)
        = ((ts.run_full_study X F)[i * (X.length * F.length) + j' * F.length + k]?).map
            (fun r => r.erosion) := by
  refine ⟨?_, by ring, ?_⟩
  · unfold LandingPad.calculate_erosion
    ring
  · rw [run_full_study_getElem? ts X F i j k hi hj hk,
      run_full_study_getElem? ts X F i j' k hi hj' hk]
    rfl

/-- Witness for C8 at one pad, distances `[30, 50]`, frequencies `[5, 10]`,
comparing the records at distance indices 0 and 1 with the same frequency. -/
theorem erosion_linear_and_distance_independent_witness :
    (0 < ([padBRP] : List LandingPad).length) ∧ (0 < ([30, 50] : List ℚ).length)
      ∧ (1 < ([30, 50] : List ℚ).length) ∧ (0 < ([5, 10] : List ℚ).length)
      ∧ (padBRP.calculate_erosion (2 * 40) = 2 * padBRP.calculate_erosion 40
          ∧ padBRP.calculate_erosion 40 * (2 * 5)
            = 2 * (padBRP.calculate_erosion 40 * 5)
          ∧ ((TradeStudy.run_full_study ⟨[padBRP], 40, 120⟩ [30, 50]
                [5, 10])[0 * (([30, 50] : List ℚ).length * ([5, 10] : List ℚ).length)
                  + 0 * ([5, 10] : List ℚ).length + 0]?).map (fun r => r.erosion)
            = ((TradeStudy.run_full_study ⟨[padBRP], 40, 120⟩ [30, 50]
                [5, 10])[0 * (([30, 50] : List ℚ).length * ([5, 10] : List ℚ).length)
                  + 1 * ([5, 10] : List ℚ).length + 0]?).map (fun r => r.erosion)) :=
  ⟨by decide, by decide, by decide, by decide,
    erosion_linear_and_distance_independent ⟨[padBRP], 40, 120⟩ padBRP 40 5 [30, 50]
      [5, 10] 0 0 1 0 (by decide) (by decide) (by decide) (by decide)⟩

/-- Claim C9: the failure surfaced by a mid-sweep division by zero does NOT
identify the `(design, distance, frequency)` triple that triggered it — the
sweep raises the bare division error.  Two runs that fail at different triples
(`(BRP, 0, 5)` for the first, `(HSP, 0, 3)` for the second, after the second
run's point at distance 30 succeeded) surface the identical error value. -/
theorem zero_distance_error_uninformative :
    TradeStudy.run_full_studyE ⟨[padBRP], 40, 120⟩ [0] [5]
        = Except.error divisionErrorMsg
      ∧ TradeStudy.run_full_studyE ⟨[padHSP], 40, 120⟩ [30, 0] [3]
        = Except.error divisionErrorMsg
      ∧ TradeStudy.run_full_studyE ⟨[padBRP], 40, 120⟩ [0] [5]
        = TradeStudy.run_full_studyE ⟨[padHSP], 40, 120⟩ [30, 0] [3] := by
  have h1 : TradeStudy.run_full_studyE ⟨[padBRP], 40, 120⟩ [0] [5]
      = Except.error divisionErrorMsg := by
    show sweepPadsE 40 [0] [5] [padBRP] = _
    rw [sweepPadsE, sweepDistsE_error padBRP 40 [5] [0] (by simp) (List.cons_ne_nil _ _)]
    rfl
  have h2 : TradeStudy.run_full_studyE ⟨[padHSP], 40, 120⟩ [30, 0] [3]
      = Except.error divisionErrorMsg := by
    show sweepPadsE 40 [30, 0] [3] [padHSP] = _
    rw [sweepPadsE,
      sweepDistsE_error padHSP 40 [3] [30, 0] (by simp) (List.cons_ne_nil _ _)]
    rfl
  exact ⟨h1, h2, h1.trans h2.symm⟩

/-- Claim C10: when any of the three input sequences is empty the sweep raises
no error and returns the empty record sequence — no non-emptiness validation
happens at the sweep boundary. -/
theorem run_full_studyE_empty_axis (ts : TradeStudy) (X F : List ℚ)
    (h : ts.pads = [] ∨ X = [] ∨ F = []) :
    ts.run_full_studyE X F = Except.ok [] := by
  unfold TradeStudy.run_full_studyE
  rcases h with hp | hX | hF
  · rw [hp]
    rfl
  · rw [hX]
    exact sweepPadsE_nil_dists _ _ _
  · rw [hF]
    exact sweepPadsE_nil_freqs _ _ _

/-- Witness for C10: one pad and one frequency but an empty distance axis. -/
theorem run_full_studyE_empty_axis_witness :
    (([padBRP] : List LandingPad) = [] ∨ ([] : List ℚ) = [] ∨ ([5] : List ℚ) = [])
      ∧ TradeStudy.run_full_studyE ⟨[padBRP], 40, 120⟩ [] [5] = Except.ok [] :=
  ⟨Or.inr (Or.inl rfl),
    run_full_studyE_empty_axis ⟨[padBRP], 40, 120⟩ [] [5] (Or.inr (Or.inl rfl))⟩
